import Mathlib

/-!
Shallow embedding of the palm_island registration/verification backend.

The repository holds two near-identical Express servers over a Mongo
`Users` collection:
  * `src/bid_backend/server-clean.js` — the gated variant: registration
    stores `isEmailVerified: false` and login refuses unverified accounts;
  * `src/unnamed/part_000` — the auto-verified variant: registration
    stores `isEmailVerified: true`, login skips the verification gate, and
    the handlers call `sendWelcomeEmail`.

The document store is embedded as a `List Account`; `User.findOne`
becomes `List.find?` and `user.save()` replaces the found document in
place.  Dates are milliseconds since the epoch (`Nat`); the random token
produced by `crypto.randomBytes(32).toString('hex')` is passed to each
handler as an explicit argument.  JSON response bodies are kept as
ordered field lists so the exact shape each handler sends can be stated.
-/

/-- A JSON value as sent in a response body. -/
inductive Jval where
  | str : String → Jval
  | num : Nat → Jval
  | bool : Bool → Jval
  | obj : List (String × Jval) → Jval
deriving Repr

/-- An HTTP response: status code and JSON object body (ordered fields). -/
structure Http where
  status : Nat
  body : List (String × Jval)
deriving Repr

/-- A document of the Mongo `Users` collection, per `UserSchema`
(`fullname`, `email`, `role`, `password`, `isEmailVerified`,
`emailVerificationToken`, `emailVerificationExpires`).  `id` embeds
`_id`; timestamps (`createdAt`/`updatedAt`) are not modelled since no
handler reads them. -/
structure Account where
  id : Nat
  fullname : String
  email : String
  role : String
  password : String
  isEmailVerified : Bool
  emailVerificationToken : Option String
  emailVerificationExpires : Option Nat
deriving Repr, DecidableEq

/-- The database: the `Users` collection. -/
abbrev DB := List Account

/-- Modelled from the spec: `bcryptjs.hash` is library code outside the
repository.  §4.1 specifies a salted one-way transform with `verify`
true iff the plaintext would hash to the hash under the same salt; for a
fixed salt it is embedded as an injective tagged encoding (the `$2a$10$`
prefix plays the role of the algorithm/cost/salt header of a bcrypt
digest). -/
def bcryptHash (plaintext : String) : String :=
  "$2a$10$" ++ plaintext

/-- Modelled from the spec: `bcryptjs.compare(password, hash)` re-derives
the digest from the plaintext and the hash's salt header and compares;
true iff `password` hashes to `hash`. -/
def bcryptCompare (password hash : String) : Bool :=
  hash = bcryptHash password

/-- Twenty-four hours in milliseconds: `24 * 60 * 60 * 1000` from the source. -/
def dayMs : Nat := 24 * 60 * 60 * 1000

/-- The document both `User.create` calls build: hashed password, a
fresh token and a 24-hour expiry; the variants differ only in the
`isEmailVerified` literal (`false` gated, `true` auto-verified). -/
def newAccount (fullname email password role token : String)
    (now nextId : Nat) (verified : Bool) : Account :=
  { id := nextId, fullname := fullname, email := email, role := role
    password := bcryptHash password
    isEmailVerified := verified
    emailVerificationToken := some token
    emailVerificationExpires := some (now + dayMs) }

/-- Handler for `POST /register` of `src/bid_backend/server-clean.js` (gated
variant).  `token` stands for the `crypto.randomBytes(32).toString('hex')`
value, `now` for `Date.now()`, `nextId` for the `_id` Mongo assigns.
JS falsiness of a missing/empty body field is embedded as `= ""`.
The Mongoose schema's `min: 2, max: 50` on `fullname` impose no check
here: `min`/`max` are Number/Date validators and are ignored on a String
path (the String ones are `minlength`/`maxlength`), so no length
validation runs anywhere in the handler. -/
def registerGated (db : DB) (fullname email password role : String)
    (token : String) (now : Nat) (nextId : Nat) : Http × DB :=
  if fullname = "" ∨ email = "" ∨ password = "" ∨ role = "" then
    ({ status := 400, body := [("message", .str "All fields are required")] }, db)
  else
    match db.find? (fun u => u.email = email) with
    | some _ =>
        ({ status := 400, body := [("message", .str "Email already exists")] }, db)
    | none =>
        ({ status := 201,
           body := [("message", .str "Registration successful! Please check your email to verify your account."),
                    ("userId", .num nextId),
                    ("verificationToken", .str token)] },
         db ++ [newAccount fullname email password role token now nextId false])

/-- Handler for `POST /register` of `src/unnamed/part_000` (auto-verified variant):
stores `isEmailVerified: true`, calls `sendWelcomeEmail` whose outcome
(`emailOk`) is only logged, and always answers 201 on creation. -/
def registerAuto (db : DB) (fullname email password role : String)
    (token : String) (now : Nat) (nextId : Nat) (emailOk : Bool) : Http × DB :=
  if fullname = "" ∨ email = "" ∨ password = "" ∨ role = "" then
    ({ status := 400, body := [("message", .str "All fields are required")] }, db)
  else
    match db.find? (fun u => u.email = email) with
    | some _ =>
        ({ status := 400, body := [("message", .str "Email already exists")] }, db)
    | none =>
        ({ status := 201,
           body := [("message", .str "Registration successful! Welcome to Palm Island Football Academy. You can now login to your account."),
                    ("userId", .num nextId)] },
         db ++ [newAccount fullname email password role token now nextId true])

/-- Whether a document's `emailVerificationToken` equals `t` (the first
clause of the `User.findOne` filter of `GET /verify-email`). -/
def tokenMatches (t : String) (u : Account) : Bool :=
  u.emailVerificationToken = some t

/-- Whether `emailVerificationExpires > now`, the `$gt: new Date()`
clause; a `null` expiry never satisfies `$gt`. -/
def expiryFuture (now : Nat) (u : Account) : Bool :=
  match u.emailVerificationExpires with
  | some e => now < e
  | none => false

/-- The full `findOne` filter of `GET /verify-email`: token equal and
expiry strictly in the future. -/
def tokenValid (t : String) (now : Nat) (u : Account) : Bool :=
  tokenMatches t u && expiryFuture now u

/-- The three assignments the verify handler makes on the found user
before `user.save()`. -/
def clearVerification (u : Account) : Account :=
  { u with isEmailVerified := true
           emailVerificationToken := none
           emailVerificationExpires := none }

/-- Model of `user.save()` after `findOne`: replace the first document matching
the filter; the rest of the collection is untouched. -/
def updateFirst (p : Account → Bool) (f : Account → Account) : DB → DB
  | [] => []
  | u :: rest => if p u then f u :: rest else u :: updateFirst p f rest

/-- Handler for `GET /verify-email` of `src/bid_backend/server-clean.js`.  `token`
is `req.query.token` (`none` = absent); `!token` is also true of the
empty string. -/
def verifyEmailGated (db : DB) (token : Option String) (now : Nat) : Http × DB :=
  match token with
  | none =>
      ({ status := 400, body := [("message", .str "Verification token is required")] }, db)
  | some t =>
      if t = "" then
        ({ status := 400, body := [("message", .str "Verification token is required")] }, db)
      else
        match db.find? (tokenValid t now) with
        | none =>
            ({ status := 400,
               body := [("message", .str "Invalid or expired verification token")] }, db)
        | some _ =>
            ({ status := 200,
               body := [("message", .str "Email verified successfully! You can now login to your account."),
                        ("isVerified", .bool true)] },
             updateFirst (tokenValid t now) clearVerification db)

/-- Handler for `GET /verify-email` of `src/unnamed/part_000`: identical lookup and
mutation; additionally calls `sendWelcomeEmail`, whose outcome
(`emailOk`) is only logged and never alters the response. -/
def verifyEmailAuto (db : DB) (token : Option String) (now : Nat)
    (emailOk : Bool) : Http × DB :=
  match token with
  | none =>
      ({ status := 400, body := [("message", .str "Verification token is required")] }, db)
  | some t =>
      if t = "" then
        ({ status := 400, body := [("message", .str "Verification token is required")] }, db)
      else
        match db.find? (tokenValid t now) with
        | none =>
            ({ status := 400,
               body := [("message", .str "Invalid or expired verification token")] }, db)
        | some _ =>
            ({ status := 200,
               body := [("message", .str "Email verified successfully! You can now login to your account."),
                        ("isVerified", .bool true)] },
             updateFirst (tokenValid t now) clearVerification db)

/-- Handler for `POST /login` of `src/bid_backend/server-clean.js`: refuses
unverified accounts before checking the password.  Login never writes
the store, so only the response is returned. -/
def loginGated (db : DB) (email password : String) : Http :=
  if email = "" ∨ password = "" then
    { status := 400, body := [("message", .str "Email and password are required")] }
  else
    match db.find? (fun u => u.email = email) with
    | none =>
        { status := 401, body := [("message", .str "Invalid email or password")] }
    | some user =>
        if !user.isEmailVerified then
          { status := 401,
            body := [("message", .str "Please verify your email before logging in"),
                     ("emailVerified", .bool false)] }
        else if !(bcryptCompare password user.password) then
          { status := 401, body := [("message", .str "Invalid email or password")] }
        else
          { status := 200,
            body := [("message", .str "Login successful"),
                     ("user", .obj [("id", .num user.id),
                                    ("fullname", .str user.fullname),
                                    ("email", .str user.email),
                                    ("role", .str user.role),
                                    ("isEmailVerified", .bool user.isEmailVerified)])] }

/-- Handler for `POST /login` of `src/unnamed/part_000`: the verification gate is
removed ("Email verification check removed"); otherwise identical. -/
def loginAuto (db : DB) (email password : String) : Http :=
  if email = "" ∨ password = "" then
    { status := 400, body := [("message", .str "Email and password are required")] }
  else
    match db.find? (fun u => u.email = email) with
    | none =>
        { status := 401, body := [("message", .str "Invalid email or password")] }
    | some user =>
        if !(bcryptCompare password user.password) then
          { status := 401, body := [("message", .str "Invalid email or password")] }
        else
          { status := 200,
            body := [("message", .str "Login successful"),
                     ("user", .obj [("id", .num user.id),
                                    ("fullname", .str user.fullname),
                                    ("email", .str user.email),
                                    ("role", .str user.role),
                                    ("isEmailVerified", .bool user.isEmailVerified)])] }

/-- Handler for `POST /resend-verification` of `src/bid_backend/server-clean.js`:
refuses verified accounts, then stores a fresh token and expiry; the
"email" is a console simulation, so no notifier outcome exists. -/
def resendGated (db : DB) (email : String) (token : String) (now : Nat) : Http × DB :=
  if email = "" then
    ({ status := 400, body := [("message", .str "Email is required")] }, db)
  else
    match db.find? (fun u => u.email = email) with
    | none =>
        ({ status := 404, body := [("message", .str "User not found")] }, db)
    | some user =>
        if user.isEmailVerified then
          ({ status := 400, body := [("message", .str "Email is already verified")] }, db)
        else
          ({ status := 200,
             body := [("message", .str "Verification email sent successfully! Please check your email."),
                      ("verificationToken", .str token)] },
           updateFirst (fun u => u.email = email)
             (fun u => { u with emailVerificationToken := some token
                                emailVerificationExpires := some (now + dayMs) }) db)

/-- Handler for `POST /resend-verification` of `src/unnamed/part_000`: no state
mutation at all; it sends a welcome email and the response depends on
the notifier outcome — 200 on success, 500 on failure. -/
def resendAuto (db : DB) (email : String) (emailOk : Bool) : Http × DB :=
  if email = "" then
    ({ status := 400, body := [("message", .str "Email is required")] }, db)
  else
    match db.find? (fun u => u.email = email) with
    | none =>
        ({ status := 404, body := [("message", .str "User not found")] }, db)
    | some _ =>
        if emailOk then
          ({ status := 200,
             body := [("message", .str "Welcome email sent successfully! Your account is already active.")] }, db)
        else
          ({ status := 500,
             body := [("message", .str "Failed to send welcome email. Please try again later.")] }, db)

/-- At most one stored Account per email: the Mongoose `unique: true`
index invariant on `email`. -/
def uniqueEmails (db : DB) : Prop :=
  db.Pairwise (fun a b => a.email ≠ b.email)

/-- No two positions of the store both hold token `t` (stated pairwise
so duplicate documents are covered too). -/
def tokenUnique (t : String) (db : DB) : Prop :=
  db.Pairwise (fun v w => tokenMatches t v = false ∨ tokenMatches t w = false)

/-- A stored, verified account used by concrete witnesses. -/
def accJane : Account :=
  { id := 1, fullname := "Jane Doe", email := "jane@x.com", role := "player"
    password := bcryptHash "secret123"
    isEmailVerified := true
    emailVerificationToken := none
    emailVerificationExpires := none }

/-- A stored account pending verification, used by concrete witnesses. -/
def accPending : Account :=
  { id := 2, fullname := "Bob Roe", email := "bob@x.com", role := "coach"
    password := bcryptHash "hunter2"
    isEmailVerified := false
    emailVerificationToken := some "tok123"
    emailVerificationExpires := some 1000 }

/-- A stored account whose verification token has expired. -/
def accExpired : Account :=
  { id := 3, fullname := "Eve Lee", email := "eve@x.com", role := "player"
    password := bcryptHash "pw12345"
    isEmailVerified := false
    emailVerificationToken := some "tok999"
    emailVerificationExpires := some 10 }

/-! ## Helper lemmas -/

/-- The four-field presence guard fails when every field is non-empty. -/
theorem fieldsPresent {fullname email password role : String}
    (hf : fullname ≠ "") (he : email ≠ "") (hp : password ≠ "") (hr : role ≠ "") :
    ¬(fullname = "" ∨ email = "" ∨ password = "" ∨ role = "") := by
  simp [hf, he, hp, hr]

/-- Shape of a fresh-email gated registration. -/
theorem registerGated_fresh (db : DB) (fullname email password role token : String)
    (now nextId : Nat)
    (hguard : ¬(fullname = "" ∨ email = "" ∨ password = "" ∨ role = ""))
    (hfresh : db.find? (fun u => u.email = email) = none) :
    registerGated db fullname email password role token now nextId =
      ({ status := 201,
         body := [("message", .str "Registration successful! Please check your email to verify your account."),
                  ("userId", .num nextId),
                  ("verificationToken", .str token)] },
       db ++ [newAccount fullname email password role token now nextId false]) := by
  unfold registerGated
  rw [if_neg hguard, hfresh]

/-- Shape of a duplicate-email gated registration. -/
theorem registerGated_dup (db : DB) (fullname email password role token : String)
    (now nextId : Nat) (u : Account)
    (hguard : ¬(fullname = "" ∨ email = "" ∨ password = "" ∨ role = ""))
    (hdup : db.find? (fun v => v.email = email) = some u) :
    registerGated db fullname email password role token now nextId =
      ({ status := 400, body := [("message", .str "Email already exists")] }, db) := by
  unfold registerGated
  rw [if_neg hguard, hdup]

/-- Every account of `db` misses `email` when `findOne` returns nothing. -/
theorem email_not_in_db {db : DB} {email : String}
    (hfresh : db.find? (fun u => u.email = email) = none) :
    ∀ u ∈ db, ¬ u.email = email := by
  intro u hu
  have := List.find?_eq_none.mp hfresh u hu
  simpa using this

/-- Shape of a fresh-email auto-verified registration. -/
theorem registerAuto_fresh (db : DB) (fullname email password role token : String)
    (now nextId : Nat) (emailOk : Bool)
    (hguard : ¬(fullname = "" ∨ email = "" ∨ password = "" ∨ role = ""))
    (hfresh : db.find? (fun u => u.email = email) = none) :
    registerAuto db fullname email password role token now nextId emailOk =
      ({ status := 201,
         body := [("message", .str "Registration successful! Welcome to Palm Island Football Academy. You can now login to your account."),
                  ("userId", .num nextId)] },
       db ++ [newAccount fullname email password role token now nextId true]) := by
  unfold registerAuto
  rw [if_neg hguard, hfresh]

/-! ## C1 — duplicate registration -/

/-- C1: two gated register requests with the same email run one after
the other from a store without that email: the first answers 201 and
adds exactly one Account (exactly one Account with that email exists
afterwards), the second answers 400 "Email already exists" and changes
nothing, and email uniqueness holds at every point. -/
theorem register_twice_duplicate_email
    (db : DB) (fullname email password role t1 t2 : String)
    (n1 n2 id1 id2 : Nat)
    (hf : fullname ≠ "") (he : email ≠ "") (hp : password ≠ "") (hr : role ≠ "")
    (hfresh : db.find? (fun u => u.email = email) = none)
    (huniq : uniqueEmails db) :
    (registerGated db fullname email password role t1 n1 id1).1.status = 201 ∧
    (registerGated db fullname email password role t1 n1 id1).2.length = db.length + 1 ∧
    ((registerGated db fullname email password role t1 n1 id1).2.filter
        (fun u => u.email = email)).length = 1 ∧
    registerGated (registerGated db fullname email password role t1 n1 id1).2
        fullname email password role t2 n2 id2
      = ({ status := 400, body := [("message", .str "Email already exists")] },
         (registerGated db fullname email password role t1 n1 id1).2) ∧
    uniqueEmails (registerGated db fullname email password role t1 n1 id1).2 := by
  have hguard := fieldsPresent hf he hp hr
  have hnone := email_not_in_db hfresh
  rw [registerGated_fresh db fullname email password role t1 n1 id1 hguard hfresh]
  refine ⟨rfl, by simp, ?_, ?_, ?_⟩
  · rw [List.filter_append]
    have h1 : db.filter (fun u => u.email = email) = [] := by
      rw [List.filter_eq_nil_iff]
      intro a ha
      simpa using hnone a ha
    simp [h1, newAccount]
  · have hdup : (db ++ [newAccount fullname email password role t1 n1 id1 false]).find?
        (fun v => v.email = email)
        = some (newAccount fullname email password role t1 n1 id1 false) := by
      rw [List.find?_append, hfresh]
      simp [List.find?, newAccount]
    exact registerGated_dup _ _ _ _ _ _ _ _ _ hguard hdup
  · rw [uniqueEmails, List.pairwise_append]
    refine ⟨huniq, by simp, ?_⟩
    intro a ha b hb
    simp only [List.mem_singleton] at hb
    subst hb
    simp only [newAccount]
    exact fun hcontr => hnone a ha hcontr

/-! ## C2 — uniform InvalidCredentials -/

/-- Gated login when no account matches the email. -/
theorem loginGated_unknown_email (db : DB) (email password : String)
    (hg : ¬(email = "" ∨ password = ""))
    (h : db.find? (fun u => u.email = email) = none) :
    loginGated db email password
      = { status := 401, body := [("message", .str "Invalid email or password")] } := by
  unfold loginGated
  rw [if_neg hg, h]

/-- Gated login when the account exists, is verified, and the password
fails `bcrypt.compare`. -/
theorem loginGated_wrong_password (db : DB) (email password : String) (u : Account)
    (hg : ¬(email = "" ∨ password = ""))
    (h : db.find? (fun v => v.email = email) = some u)
    (hv : u.isEmailVerified = true)
    (hc : bcryptCompare password u.password = false) :
    loginGated db email password
      = { status := 401, body := [("message", .str "Invalid email or password")] } := by
  unfold loginGated
  rw [if_neg hg, h]
  simp [hv, hc]

/-- Auto-verified login when no account matches the email. -/
theorem loginAuto_unknown_email (db : DB) (email password : String)
    (hg : ¬(email = "" ∨ password = ""))
    (h : db.find? (fun u => u.email = email) = none) :
    loginAuto db email password
      = { status := 401, body := [("message", .str "Invalid email or password")] } := by
  unfold loginAuto
  rw [if_neg hg, h]

/-- Auto-verified login when the account exists and the password fails
`bcrypt.compare`. -/
theorem loginAuto_wrong_password (db : DB) (email password : String) (u : Account)
    (hg : ¬(email = "" ∨ password = ""))
    (h : db.find? (fun v => v.email = email) = some u)
    (hc : bcryptCompare password u.password = false) :
    loginAuto db email password
      = { status := 401, body := [("message", .str "Invalid email or password")] } := by
  unfold loginAuto
  rw [if_neg hg, h]
  simp [hc]

/-- C2: a login that fails because the email matches no Account and a
login that fails because the stored hash rejects the password produce
identical responses — same 401 status, same "Invalid email or password"
message — in both server variants (in the gated variant the
password-checked account is necessarily verified, since the gate runs
first). -/
theorem login_uniform_invalid_credentials
    (db1 db2 : DB) (e1 p1 e2 p2 : String) (u : Account)
    (he1 : e1 ≠ "") (hp1 : p1 ≠ "") (he2 : e2 ≠ "") (hp2 : p2 ≠ "")
    (h1 : db1.find? (fun v => v.email = e1) = none)
    (h2 : db2.find? (fun v => v.email = e2) = some u)
    (hv : u.isEmailVerified = true)
    (hc : bcryptCompare p2 u.password = false) :
    loginGated db1 e1 p1 = loginGated db2 e2 p2 ∧
    loginAuto db1 e1 p1 = loginAuto db2 e2 p2 ∧
    loginGated db1 e1 p1
      = { status := 401, body := [("message", .str "Invalid email or password")] } ∧
    loginAuto db1 e1 p1
      = { status := 401, body := [("message", .str "Invalid email or password")] } := by
  have hg1 : ¬(e1 = "" ∨ p1 = "") := by simp [he1, hp1]
  have hg2 : ¬(e2 = "" ∨ p2 = "") := by simp [he2, hp2]
  have a1 := loginGated_unknown_email db1 e1 p1 hg1 h1
  have a2 := loginGated_wrong_password db2 e2 p2 u hg2 h2 hv hc
  have b1 := loginAuto_unknown_email db1 e1 p1 hg1 h1
  have b2 := loginAuto_wrong_password db2 e2 p2 u hg2 h2 hc
  exact ⟨a1.trans a2.symm, b1.trans b2.symm, a1, b1⟩

/-- C2 witness: unknown email `who@x.com` on an empty store versus wrong
password on `accJane`. -/
theorem login_uniform_invalid_credentials_witness :
    loginGated [] "who@x.com" "pw" = loginGated [accJane] "jane@x.com" "wrong" ∧
    loginAuto [] "who@x.com" "pw" = loginAuto [accJane] "jane@x.com" "wrong" ∧
    loginGated [] "who@x.com" "pw"
      = { status := 401, body := [("message", .str "Invalid email or password")] } ∧
    loginAuto [] "who@x.com" "pw"
      = { status := 401, body := [("message", .str "Invalid email or password")] } :=
  login_uniform_invalid_credentials [] [accJane] "who@x.com" "pw" "jane@x.com" "wrong"
    accJane (by decide) (by decide) (by decide) (by decide) rfl
    (by simp [accJane, List.find?]) rfl (by decide)

/-! ## C3 — notifier failures and responses -/

/-- C3 counterexample: in the auto-verified variant the
resend-verification handler escalates a welcome-email failure to a 500,
although the request performed no failing state mutation (the store is
untouched either way); with a working notifier the same request answers
200. -/
theorem resendAuto_escalates_email_failure :
    (resendAuto [accJane] "jane@x.com" true).1.status = 200 ∧
    (resendAuto [accJane] "jane@x.com" false).1.status = 500 ∧
    (resendAuto [accJane] "jane@x.com" false).2 = [accJane] ∧
    (resendAuto [accJane] "jane@x.com" true).2 = [accJane] :=
  ⟨rfl, rfl, rfl, rfl⟩

/-- C3 (amended): for register and verify-email the notifier outcome
never alters the response or the stored state — the handlers are
constant in `emailOk`; resend-verification in the auto-verified variant
is the exception recorded in the counterexample. -/
theorem register_verify_independent_of_notifier
    (db : DB) (fullname email password role token : String)
    (tok : Option String) (now nextId : Nat) (emailOk : Bool) :
    registerAuto db fullname email password role token now nextId emailOk
      = registerAuto db fullname email password role token now nextId true ∧
    verifyEmailAuto db tok now emailOk
      = verifyEmailAuto db tok now true := by
  cases emailOk <;> exact ⟨rfl, rfl⟩

/-! ## C4 — token expiry and single use -/

/-- Gated verify-email when the lookup misses: 400 and an untouched
store. -/
theorem verifyEmailGated_not_found (db : DB) (t : String) (now : Nat)
    (ht : t ≠ "") (h : db.find? (tokenValid t now) = none) :
    verifyEmailGated db (some t) now
      = ({ status := 400,
           body := [("message", .str "Invalid or expired verification token")] }, db) := by
  unfold verifyEmailGated
  simp only [if_neg ht, h]

/-- Gated verify-email when the lookup hits: 200 and the matched
document cleared in place. -/
theorem verifyEmailGated_found (db : DB) (t : String) (now : Nat) (u : Account)
    (ht : t ≠ "") (h : db.find? (tokenValid t now) = some u) :
    verifyEmailGated db (some t) now
      = ({ status := 200,
           body := [("message", .str "Email verified successfully! You can now login to your account."),
                    ("isVerified", .bool true)] },
         updateFirst (tokenValid t now) clearVerification db) := by
  unfold verifyEmailGated
  simp only [if_neg ht, h]

/-- What a `tokenValid` hit means: the stored token equals `t` and the
stored expiry is strictly later than `now`. -/
theorem tokenValid_spec {t : String} {now : Nat} {u : Account}
    (h : tokenValid t now u = true) :
    u.emailVerificationToken = some t ∧
    ∃ e, u.emailVerificationExpires = some e ∧ now < e := by
  unfold tokenValid tokenMatches expiryFuture at h
  rw [Bool.and_eq_true] at h
  obtain ⟨h1, h2⟩ := h
  refine ⟨by simpa using h1, ?_⟩
  cases hu : u.emailVerificationExpires with
  | none => rw [hu] at h2; simp at h2
  | some e =>
      rw [hu] at h2
      simp at h2
      exact ⟨e, rfl, h2⟩

/-- A `tokenValid` hit implies a `tokenMatches` hit. -/
theorem tokenValid_matches {t : String} {now : Nat} {u : Account}
    (h : tokenValid t now u = true) : tokenMatches t u = true := by
  unfold tokenValid at h
  rw [Bool.and_eq_true] at h
  exact h.1

/-- After a successful consume, no document of the updated store still
holds the consumed token, provided the store held it at most once. -/
theorem consume_clears_all_holders (t : String) (now : Nat) :
    ∀ (db : DB) (u : Account),
      db.find? (tokenValid t now) = some u →
      tokenUnique t db →
      ∀ v ∈ updateFirst (tokenValid t now) clearVerification db,
        tokenMatches t v = false := by
  intro db
  induction db with
  | nil => intro u h; simp [List.find?] at h
  | cons a rest ih =>
    intro u h huniq v hv
    rw [tokenUnique, List.pairwise_cons] at huniq
    obtain ⟨hhead, htail⟩ := huniq
    by_cases ha : tokenValid t now a = true
    · rw [updateFirst, if_pos ha] at hv
      have hma := tokenValid_matches ha
      rcases List.mem_cons.mp hv with h1 | h2
      · subst h1
        simp [clearVerification, tokenMatches]
      · rcases hhead v h2 with hc | hc
        · rw [hma] at hc
          exact absurd hc (by simp)
        · exact hc
    · rw [updateFirst, if_neg ha] at hv
      have h' : rest.find? (tokenValid t now) = some u := by
        rw [List.find?_cons_of_neg _ ha] at h
        exact h
      have hu := List.mem_of_find?_eq_some h'
      have hmu := tokenValid_matches (List.find?_some h')
      rcases List.mem_cons.mp hv with h1 | h2
      · subst h1
        rcases hhead u hu with hc | hc
        · exact hc
        · rw [hmu] at hc
          exact absurd hc (by simp)
      · exact ih u h' htail v h2

/-- A `tokenValid` hit implies the expiry clause. -/
theorem tokenValid_expiry {t : String} {now : Nat} {u : Account}
    (h : tokenValid t now u = true) : expiryFuture now u = true := by
  unfold tokenValid at h
  rw [Bool.and_eq_true] at h
  exact h.2

/-- A `tokenMatches` hit names the stored token. -/
theorem tokenMatches_eq {t : String} {u : Account}
    (h : tokenMatches t u = true) : u.emailVerificationToken = some t := by
  simpa [tokenMatches] using h

/-- C4: a consume that finds a token succeeds only strictly before the
stored expiry, and once consumed the token is never accepted again: the
next attempt with the same token — at any time — answers 400 and leaves
the store unchanged, provided the store held the token at most once. -/
theorem verify_token_single_use
    (db : DB) (t : String) (now now2 : Nat) (u : Account)
    (ht : t ≠ "")
    (h : db.find? (tokenValid t now) = some u)
    (huniq : tokenUnique t db) :
    (verifyEmailGated db (some t) now).1.status = 200 ∧
    u.emailVerificationToken = some t ∧
    (∃ e, u.emailVerificationExpires = some e ∧ now < e) ∧
    verifyEmailGated (verifyEmailGated db (some t) now).2 (some t) now2
      = ({ status := 400,
           body := [("message", .str "Invalid or expired verification token")] },
         (verifyEmailGated db (some t) now).2) := by
  obtain ⟨htok, hexp⟩ := tokenValid_spec (List.find?_some h)
  rw [verifyEmailGated_found db t now u ht h]
  refine ⟨rfl, htok, hexp, ?_⟩
  have hcleared := consume_clears_all_holders t now db u h huniq
  have hnone : (updateFirst (tokenValid t now) clearVerification db).find?
      (tokenValid t now2) = none := by
    rw [List.find?_eq_none]
    intro v hv hcontr
    have hm := tokenValid_matches hcontr
    rw [hcleared v hv] at hm
    exact absurd hm (by simp)
  exact verifyEmailGated_not_found _ t now2 ht hnone

/-- C4 witness: consuming `tok123` at time 5 (expiry 1000) succeeds;
re-consuming at time 7 fails and leaves the store as the consume left
it. -/
theorem verify_token_single_use_witness :
    (verifyEmailGated [accPending] (some "tok123") 5).1.status = 200 ∧
    accPending.emailVerificationToken = some "tok123" ∧
    (∃ e, accPending.emailVerificationExpires = some e ∧ 5 < e) ∧
    verifyEmailGated (verifyEmailGated [accPending] (some "tok123") 5).2 (some "tok123") 7
      = ({ status := 400,
           body := [("message", .str "Invalid or expired verification token")] },
         (verifyEmailGated [accPending] (some "tok123") 5).2) :=
  verify_token_single_use [accPending] "tok123" 5 7 accPending (by decide) rfl
    (by simp [tokenUnique])

/-! ## C5 — invalid or expired token is a pure failure -/

/-- C5: when no account holds the queried token with an unexpired
expiry — unknown token, or held only with an expiry not in the future —
verify-email answers 400 "Invalid or expired verification token" and no
stored Account changes. -/
theorem verify_unknown_or_expired_no_change
    (db : DB) (t : String) (now : Nat)
    (ht : t ≠ "")
    (hmiss : ∀ u ∈ db, u.emailVerificationToken = some t → ¬ expiryFuture now u = true) :
    verifyEmailGated db (some t) now
      = ({ status := 400,
           body := [("message", .str "Invalid or expired verification token")] }, db) := by
  have hnone : db.find? (tokenValid t now) = none := by
    rw [List.find?_eq_none]
    intro u hu hcontr
    exact hmiss u hu (tokenMatches_eq (tokenValid_matches hcontr)) (tokenValid_expiry hcontr)
  exact verifyEmailGated_not_found db t now ht hnone

/-- C5 witness: `tok999` expired at 10; the lookup at 50 fails with 400
and the store is returned unchanged (an unknown token behaves alike). -/
theorem verify_unknown_or_expired_no_change_witness :
    verifyEmailGated [accExpired] (some "tok999") 50
      = ({ status := 400,
           body := [("message", .str "Invalid or expired verification token")] },
         [accExpired]) :=
  verify_unknown_or_expired_no_change [accExpired] "tok999" 50 (by decide) (by decide)

/-! ## C6 — registration response fields -/

/-- C6 counterexample: the gated register's 201 body carries a third
field `verificationToken` after `message` and `userId` — the issued
token is sent to the client. -/
theorem registerGated_body_has_token_field :
    ((registerGated [] "Jane Doe" "jane@x.com" "secret123" "player" "tokA" 0 1).1.body.map
        Prod.fst) = ["message", "userId", "verificationToken"] ∧
    (registerGated [] "Jane Doe" "jane@x.com" "secret123" "player" "tokA" 0 1).1.status = 201 :=
  ⟨rfl, rfl⟩

/-- C6 (amended): a successful auto-verified registration answers 201
with exactly the fields `message` and `userId`; the gated variant's 201
body carries those two plus `verificationToken` (marked "For testing
purposes" in the source). -/
theorem register_success_body_fields
    (db : DB) (fullname email password role token : String)
    (now nextId : Nat) (emailOk : Bool)
    (hf : fullname ≠ "") (he : email ≠ "") (hp : password ≠ "") (hr : role ≠ "")
    (hfresh : db.find? (fun u => u.email = email) = none) :
    ((registerAuto db fullname email password role token now nextId emailOk).1.body.map
        Prod.fst) = ["message", "userId"] ∧
    (registerAuto db fullname email password role token now nextId emailOk).1.status = 201 ∧
    ((registerGated db fullname email password role token now nextId).1.body.map
        Prod.fst) = ["message", "userId", "verificationToken"] := by
  have hguard := fieldsPresent hf he hp hr
  rw [registerAuto_fresh db fullname email password role token now nextId emailOk hguard hfresh,
    registerGated_fresh db fullname email password role token now nextId hguard hfresh]
  exact ⟨rfl, rfl, rfl⟩

/-- C6 witness at a concrete fresh registration. -/
theorem register_success_body_fields_witness :
    ((registerAuto [] "Jane Doe" "jane@x.com" "secret123" "player" "tokA" 0 1 true).1.body.map
        Prod.fst) = ["message", "userId"] ∧
    (registerAuto [] "Jane Doe" "jane@x.com" "secret123" "player" "tokA" 0 1 true).1.status = 201 ∧
    ((registerGated [] "Jane Doe" "jane@x.com" "secret123" "player" "tokA" 0 1).1.body.map
        Prod.fst) = ["message", "userId", "verificationToken"] :=
  register_success_body_fields [] "Jane Doe" "jane@x.com" "secret123" "player" "tokA" 0 1 true
    (by decide) (by decide) (by decide) (by decide) rfl

/-! ## C7 — consumed versus expired token retention -/

/-- C7 counterexample: the account registered at time 0 carries expiry
`dayMs`; at time `dayMs` the expiry has passed (the strict `$gt` fails),
yet the stored document still retains token and expiry — the failed
lookup clears nothing. -/
theorem expired_token_retained :
    (registerGated [] "Jane Doe" "jane@x.com" "secret123" "player" "tokA" 0 1).2
      = [newAccount "Jane Doe" "jane@x.com" "secret123" "player" "tokA" 0 1 false] ∧
    (newAccount "Jane Doe" "jane@x.com" "secret123" "player" "tokA" 0 1 false).emailVerificationExpires
      = some dayMs ∧
    (newAccount "Jane Doe" "jane@x.com" "secret123" "player" "tokA" 0 1 false).emailVerificationToken
      = some "tokA" ∧
    expiryFuture dayMs (newAccount "Jane Doe" "jane@x.com" "secret123" "player" "tokA" 0 1 false)
      = false ∧
    verifyEmailGated [newAccount "Jane Doe" "jane@x.com" "secret123" "player" "tokA" 0 1 false]
        (some "tokA") dayMs
      = ({ status := 400,
           body := [("message", .str "Invalid or expired verification token")] },
         [newAccount "Jane Doe" "jane@x.com" "secret123" "player" "tokA" 0 1 false]) :=
  ⟨rfl, rfl, rfl, by decide, rfl⟩

/-- The function `updateFirst` rewrites exactly the document `find?` returned. -/
theorem updateFirst_replaces (p : Account → Bool) (f : Account → Account) :
    ∀ (db : DB) (u : Account), db.find? p = some u →
      ∃ l₁ l₂, db = l₁ ++ u :: l₂ ∧ updateFirst p f db = l₁ ++ f u :: l₂ := by
  intro db
  induction db with
  | nil => intro u h; simp [List.find?] at h
  | cons a rest ih =>
    intro u h
    by_cases ha : p a = true
    · rw [List.find?_cons_of_pos _ ha] at h
      cases h
      exact ⟨[], rest, by simp, by simp [updateFirst, ha]⟩
    · rw [List.find?_cons_of_neg _ ha] at h
      obtain ⟨l₁, l₂, hdb, hupd⟩ := ih u h
      exact ⟨a :: l₁, l₂, by rw [List.cons_append, ← hdb],
        by rw [updateFirst, if_neg ha, hupd, List.cons_append]⟩

/-- C7 (amended): a consumed token is cleared — the consumed document is
replaced in place by one whose token and expiry are both `null` — while
an expired (or unknown) token is retained: expiry is enforced only at
lookup, which leaves every stored Account unchanged. -/
theorem consumed_cleared_expired_retained
    (db : DB) (t : String) (now : Nat) (u : Account)
    (ht : t ≠ "")
    (h : db.find? (tokenValid t now) = some u) :
    (∃ l₁ l₂, db = l₁ ++ u :: l₂ ∧
        (verifyEmailGated db (some t) now).2 = l₁ ++ clearVerification u :: l₂) ∧
    (clearVerification u).emailVerificationToken = none ∧
    (clearVerification u).emailVerificationExpires = none ∧
    (∀ (db' : DB) (t' : String) (now' : Nat), t' ≠ "" →
        (∀ v ∈ db', v.emailVerificationToken = some t' → ¬ expiryFuture now' v = true) →
        (verifyEmailGated db' (some t') now').2 = db') := by
  refine ⟨?_, rfl, rfl, ?_⟩
  · obtain ⟨l₁, l₂, hdb, hupd⟩ :=
      updateFirst_replaces (tokenValid t now) clearVerification db u h
    refine ⟨l₁, l₂, hdb, ?_⟩
    rw [verifyEmailGated_found db t now u ht h]
    exact hupd
  · intro db' t' now' ht' hmiss
    have hnone : db'.find? (tokenValid t' now') = none := by
      rw [List.find?_eq_none]
      intro v hv hcontr
      exact hmiss v hv (tokenMatches_eq (tokenValid_matches hcontr)) (tokenValid_expiry hcontr)
    rw [verifyEmailGated_not_found db' t' now' ht' hnone]

/-- C7 amended-theorem witness: consuming `tok123` on the one-account
store replaces `accPending` by its cleared form. -/
theorem consumed_cleared_expired_retained_witness :
    (∃ l₁ l₂, [accPending] = l₁ ++ accPending :: l₂ ∧
        (verifyEmailGated [accPending] (some "tok123") 5).2
          = l₁ ++ clearVerification accPending :: l₂) ∧
    (clearVerification accPending).emailVerificationToken = none ∧
    (clearVerification accPending).emailVerificationExpires = none ∧
    (∀ (db' : DB) (t' : String) (now' : Nat), t' ≠ "" →
        (∀ v ∈ db', v.emailVerificationToken = some t' → ¬ expiryFuture now' v = true) →
        (verifyEmailGated db' (some t') now').2 = db') :=
  consumed_cleared_expired_retained [accPending] "tok123" 5 accPending (by decide) rfl

/-! ## C8 — fullName length is not validated -/

/-- C8: the handlers accept a 1-character and a 51-character `fullname`
and store the Account — no 2–50 length check runs, because the schema's
`min: 2, max: 50` are Number/Date validators that Mongoose ignores on a
String path (the intended ones are `minlength`/`maxlength`), and the
route code only tests falsiness. -/
theorem register_accepts_out_of_range_fullname :
    "A".length = 1 ∧
    (registerGated [] "A" "a@x.com" "pw" "player" "tokA" 0 1).1.status = 201 ∧
    (registerGated [] "A" "a@x.com" "pw" "player" "tokA" 0 1).2
      = [newAccount "A" "a@x.com" "pw" "player" "tokA" 0 1 false] ∧
    "AAAAAAAAAAAAAAAAAAAAAAAAAAAAAAAAAAAAAAAAAAAAAAAAAAA".length = 51 ∧
    (registerGated [] "AAAAAAAAAAAAAAAAAAAAAAAAAAAAAAAAAAAAAAAAAAAAAAAAAAA"
        "b@x.com" "pw" "player" "tokB" 0 2).1.status = 201 ∧
    (registerAuto [] "A" "a@x.com" "pw" "player" "tokA" 0 1 true).1.status = 201 :=
  ⟨rfl, rfl, rfl, rfl, rfl, rfl⟩

/-! ## C9 — password hashing -/

/-- The model hash `bcryptHash` is injective in the fixed-salt model. -/
theorem bcryptHash_injective {p q : String}
    (h : bcryptHash p = bcryptHash q) : p = q := by
  unfold bcryptHash at h
  have hd := congrArg String.data h
  simp [String.data_append] at hd
  exact String.ext hd

/-- The hash is strictly longer than the plaintext, hence distinct. -/
theorem bcryptHash_ne_plaintext (p : String) : bcryptHash p ≠ p := by
  intro hcontr
  have hlen := congrArg String.length hcontr
  unfold bcryptHash at hlen
  rw [String.length_append] at hlen
  have h7 : ("$2a$10$" : String).length = 7 := rfl
  rw [h7] at hlen
  omega

/-- C9: `verify(p, hash(p))` is true; `verify(q, hash(p))` is false for
`q ≠ p`; the hash never equals the plaintext; and registration stores
exactly the hash in the `password` field, never the plaintext. -/
theorem password_hash_roundtrip_and_storage
    (p q : String) (hq : q ≠ p)
    (db : DB) (fullname email role token : String) (now nextId : Nat)
    (hf : fullname ≠ "") (he : email ≠ "") (hp : p ≠ "") (hr : role ≠ "")
    (hfresh : db.find? (fun u => u.email = email) = none) :
    bcryptCompare p (bcryptHash p) = true ∧
    bcryptCompare q (bcryptHash p) = false ∧
    bcryptHash p ≠ p ∧
    (registerGated db fullname email p role token now nextId).2
      = db ++ [newAccount fullname email p role token now nextId false] ∧
    (newAccount fullname email p role token now nextId false).password = bcryptHash p := by
  refine ⟨by simp [bcryptCompare], ?_, bcryptHash_ne_plaintext p, ?_, rfl⟩
  · simp only [bcryptCompare, decide_eq_false_iff_not]
    intro hcontr
    exact hq (bcryptHash_injective hcontr.symm)
  · rw [registerGated_fresh db fullname email p role token now nextId
      (fieldsPresent hf he hp hr) hfresh]

/-- C9 witness at `p = secret123`, `q = wrong`. -/
theorem password_hash_roundtrip_and_storage_witness :
    bcryptCompare "secret123" (bcryptHash "secret123") = true ∧
    bcryptCompare "wrong" (bcryptHash "secret123") = false ∧
    bcryptHash "secret123" ≠ "secret123" ∧
    (registerGated [] "Jane Doe" "jane@x.com" "secret123" "player" "tokA" 0 1).2
      = [] ++ [newAccount "Jane Doe" "jane@x.com" "secret123" "player" "tokA" 0 1 false] ∧
    (newAccount "Jane Doe" "jane@x.com" "secret123" "player" "tokA" 0 1 false).password
      = bcryptHash "secret123" :=
  password_hash_roundtrip_and_storage "secret123" "wrong" (by decide) [] "Jane Doe"
    "jane@x.com" "player" "tokA" 0 1 (by decide) (by decide) (by decide) (by decide) rfl

/-! ## C10 — auto-verified registration still leaves a consumable token -/

/-- The two verify-email handlers compute the same lookup, mutation and
response; the auto variant's extra `sendWelcomeEmail` only logs. -/
theorem verifyEmailAuto_eq_gated (db : DB) (token : Option String)
    (now : Nat) (emailOk : Bool) :
    verifyEmailAuto db token now emailOk = verifyEmailGated db token now := rfl

/-- The function `updateFirst` passes over a prefix with no match. -/
theorem updateFirst_append_of_no_match (p : Account → Bool) (f : Account → Account) :
    ∀ (l₁ l₂ : DB), (∀ v ∈ l₁, p v = false) →
      updateFirst p f (l₁ ++ l₂) = l₁ ++ updateFirst p f l₂ := by
  intro l₁
  induction l₁ with
  | nil => intro l₂ h; rfl
  | cons a rest ih =>
    intro l₂ h
    rw [List.cons_append, updateFirst,
      if_neg (by simp [h a (List.mem_cons_self a rest)]),
      ih l₂ (fun v hv => h v (List.mem_cons_of_mem a hv)), List.cons_append]

/-- C10: in the auto-verified variant a successful registration stores
an Account that is already verified yet still holds a fresh token and
expiry; a later GET /verify-email with that token (before expiry, with
no other pending holder) matches that Account, answers 200, and mutates
it by clearing the token fields — not a no-op. -/
theorem registerAuto_then_verify_consumes
    (db : DB) (fullname email password role t : String)
    (now now2 nextId : Nat) (eo1 eo2 : Bool)
    (hf : fullname ≠ "") (he : email ≠ "") (hp : password ≠ "") (hr : role ≠ "")
    (ht : t ≠ "")
    (hfresh : db.find? (fun u => u.email = email) = none)
    (hnotok : ∀ v ∈ db, tokenValid t now2 v = false)
    (hnow : now2 < now + dayMs) :
    (registerAuto db fullname email password role t now nextId eo1).1.status = 201 ∧
    (registerAuto db fullname email password role t now nextId eo1).2
      = db ++ [newAccount fullname email password role t now nextId true] ∧
    (newAccount fullname email password role t now nextId true).isEmailVerified = true ∧
    (newAccount fullname email password role t now nextId true).emailVerificationToken
      = some t ∧
    (newAccount fullname email password role t now nextId true).emailVerificationExpires
      = some (now + dayMs) ∧
    verifyEmailAuto (registerAuto db fullname email password role t now nextId eo1).2
        (some t) now2 eo2
      = ({ status := 200,
           body := [("message", .str "Email verified successfully! You can now login to your account."),
                    ("isVerified", .bool true)] },
         db ++ [clearVerification (newAccount fullname email password role t now nextId true)]) ∧
    (clearVerification (newAccount fullname email password role t now nextId true)).emailVerificationToken
      = none := by
  have hguard := fieldsPresent hf he hp hr
  rw [registerAuto_fresh db fullname email password role t now nextId eo1 hguard hfresh]
  refine ⟨rfl, rfl, rfl, rfl, rfl, ?_, rfl⟩
  have hval : tokenValid t now2 (newAccount fullname email password role t now nextId true)
      = true := by
    simp [tokenValid, tokenMatches, expiryFuture, newAccount, hnow]
  have hdbnone : db.find? (tokenValid t now2) = none := by
    rw [List.find?_eq_none]
    intro v hv hcontr
    rw [hnotok v hv] at hcontr
    exact absurd hcontr (by simp)
  have hfind : (db ++ [newAccount fullname email password role t now nextId true]).find?
      (tokenValid t now2)
      = some (newAccount fullname email password role t now nextId true) := by
    rw [List.find?_append, hdbnone]
    simp [List.find?, hval]
  rw [verifyEmailAuto_eq_gated,
    verifyEmailGated_found _ t now2 (newAccount fullname email password role t now nextId true)
      ht hfind,
    updateFirst_append_of_no_match (tokenValid t now2) clearVerification db _
      (fun v hv => hnotok v hv),
    updateFirst, if_pos hval]

/-- C10 witness: fresh store, registration at time 0, consume at time 5
with the registration token `tokA`. -/
theorem registerAuto_then_verify_consumes_witness :
    (registerAuto [] "Jane Doe" "jane@x.com" "secret123" "player" "tokA" 0 1 true).1.status
      = 201 ∧
    (registerAuto [] "Jane Doe" "jane@x.com" "secret123" "player" "tokA" 0 1 true).2
      = [] ++ [newAccount "Jane Doe" "jane@x.com" "secret123" "player" "tokA" 0 1 true] ∧
    (newAccount "Jane Doe" "jane@x.com" "secret123" "player" "tokA" 0 1 true).isEmailVerified
      = true ∧
    (newAccount "Jane Doe" "jane@x.com" "secret123" "player" "tokA" 0 1 true).emailVerificationToken
      = some "tokA" ∧
    (newAccount "Jane Doe" "jane@x.com" "secret123" "player" "tokA" 0 1 true).emailVerificationExpires
      = some (0 + dayMs) ∧
    verifyEmailAuto (registerAuto [] "Jane Doe" "jane@x.com" "secret123" "player" "tokA" 0 1 true).2
        (some "tokA") 5 false
      = ({ status := 200,
           body := [("message", .str "Email verified successfully! You can now login to your account."),
                    ("isVerified", .bool true)] },
         [] ++ [clearVerification (newAccount "Jane Doe" "jane@x.com" "secret123" "player" "tokA" 0 1 true)]) ∧
    (clearVerification (newAccount "Jane Doe" "jane@x.com" "secret123" "player" "tokA" 0 1 true)).emailVerificationToken
      = none :=
  registerAuto_then_verify_consumes [] "Jane Doe" "jane@x.com" "secret123" "player" "tokA"
    0 5 1 true false (by decide) (by decide) (by decide) (by decide) (by decide) rfl
    (by decide) (by decide)

/-- C1 witness: registering `jane@x.com` twice on an empty store. -/
theorem register_twice_duplicate_email_witness :
    (registerGated [] "Jane Doe" "jane@x.com" "secret123" "player" "t1" 0 1).1.status = 201 ∧
    (registerGated [] "Jane Doe" "jane@x.com" "secret123" "player" "t1" 0 1).2.length = 1 ∧
    ((registerGated [] "Jane Doe" "jane@x.com" "secret123" "player" "t1" 0 1).2.filter
        (fun u => u.email = "jane@x.com")).length = 1 ∧
    registerGated (registerGated [] "Jane Doe" "jane@x.com" "secret123" "player" "t1" 0 1).2
        "Jane Doe" "jane@x.com" "secret123" "player" "t2" 9 2
      = ({ status := 400, body := [("message", .str "Email already exists")] },
         (registerGated [] "Jane Doe" "jane@x.com" "secret123" "player" "t1" 0 1).2) ∧
    uniqueEmails (registerGated [] "Jane Doe" "jane@x.com" "secret123" "player" "t1" 0 1).2 :=
  register_twice_duplicate_email [] "Jane Doe" "jane@x.com" "secret123" "player" "t1" "t2"
    0 9 1 2 (by decide) (by decide) (by decide) (by decide) rfl List.Pairwise.nil
